import Mathlib

/-!
Shallow embedding of the MenstruationTracker prediction pipeline
(`Tracker/ml/model.py`, `Tracker/ml/data_loader.py`, `Tracker/forecast_service.py`,
`Tracker/models.py`, `Tracker/views.py`) together with proofs of the verified
properties.  Machine floats are modelled by exact rationals (and by reals where
`np.std`/`sqrt` produces irrational values); Python exceptions are modelled by
`Except`; the on-disk model artifact is modelled by an `Option`-valued store.
-/

namespace Tracker

/-- `np.mean` over a list of rationals. -/
def np_mean (xs : List ℚ) : ℚ := xs.sum / (xs.length : ℚ)

/-- Squared `np.std`, i.e. the population variance (numpy default `ddof=0`):
the mean of the squared deviations from the mean. -/
def np_var (xs : List ℚ) : ℚ := np_mean (xs.map (fun x => (x - np_mean xs) ^ 2))

/-- `np.std` (population standard deviation, numpy default `ddof=0`). -/
noncomputable def np_std (xs : List ℚ) : ℝ := Real.sqrt ((np_var xs : ℚ) : ℝ)

/-- Python `round(x, 1)` on exact rationals.  Python rounds floats half to
even while Lean's `round` rounds half up; the two agree except at exact
`.x5` ties, on which no verified property depends. -/
def round1 (x : ℚ) : ℚ := ((round (10 * x) : ℤ) : ℚ) / 10

/-- Python `round(x, 2)` on exact rationals (same tie caveat as `round1`). -/
def round2 (x : ℚ) : ℚ := ((round (100 * x) : ℤ) : ℚ) / 100

/-- Python `round(x, 1)` for real-valued raw model output. -/
noncomputable def round1R (x : ℝ) : ℝ := ((round (10 * x) : ℤ) : ℝ) / 10

/-- Python `int(x)`: truncation toward zero. -/
noncomputable def pyInt (x : ℝ) : ℤ := if 0 ≤ x then ⌊x⌋ else -⌊-x⌋

/-- The `symptoms` dict passed to `predict_with_history`.  The five boolean
symptom entries are read with Python truthiness (`symptoms.get('cramps')`),
so an absent key behaves exactly like `False`.  `flow_encoded` and
`period_length` are read with `symptoms.get(key, default)` and can be
present-but-`None`: the outer `Option` records key presence, the inner one
records `None`-ness of the stored value. -/
structure Symptoms where
  cramps : Bool := false
  headache : Bool := false
  mood_swings : Bool := false
  fatigue : Bool := false
  bloating : Bool := false
  flow_encoded : Option (Option ℚ) := none
  period_length : Option (Option ℚ) := none
deriving DecidableEq

/-- The lag/rolling statistics computed at the top of `predict_with_history`
(src/Tracker/ml/model.py lines 167-188): `prev_1`, `prev_2`, `prev_3`,
`rolling_mean`, `rolling_std`. -/
structure HistStats where
  prev1 : ℚ
  prev2 : ℚ
  prev3 : ℚ
  mean : ℚ
  std : ℝ

/-- Python `xs[-3:]` for a list known to have at least 3 elements. -/
def last3 (xs : List ℚ) : List ℚ := xs.drop (xs.length - 3)

/-- The history-length case split of `predict_with_history`
(src/Tracker/ml/model.py lines 168-188).  Negative Python indices
`xs[-1]`, `xs[-2]`, `xs[-3]` are read off the reversed list; they are
always in range in the branch that uses them, so the `getD` default 0 is
never taken. -/
noncomputable def historyStats (xs : List ℚ) : HistStats :=
  if 3 ≤ xs.length then
    { prev1 := xs.reverse.getD 0 0
      prev2 := xs.reverse.getD 1 0
      prev3 := xs.reverse.getD 2 0
      mean := np_mean (last3 xs)
      std := np_std (last3 xs) }
  else if 2 ≤ xs.length then
    { prev1 := xs.reverse.getD 0 0
      prev2 := xs.reverse.getD 1 0
      prev3 := xs.reverse.getD 0 0
      mean := np_mean xs
      std := if 1 < xs.length then np_std xs else 2 }
  else if xs.length = 1 then
    { prev1 := xs.headD 0
      prev2 := xs.headD 0
      prev3 := xs.headD 0
      mean := xs.headD 0
      std := 2 }
  else
    { prev1 := 28
      prev2 := 28
      prev3 := 28
      mean := 28
      std := 2 }

/-- The ℚ→ℝ view of an optional float value. -/
def toRealOpt (o : Option ℚ) : Option ℝ := o.map (fun q => (q : ℝ))

/-- `features_dict.get(name)`: `none` when the key is absent, otherwise the
stored (possibly-`None`) value. -/
def dget (d : List (String × Option ℝ)) (n : String) : Option (Option ℝ) :=
  (d.find? (fun p => p.1 == n)).map (fun p => p.2)

/-- The `features` dict literal built by `predict_with_history`
(src/Tracker/ml/model.py lines 190-204). -/
noncomputable def features_of (xs : List ℚ) (user_age : ℚ) (s : Symptoms) :
    List (String × Option ℝ) :=
  let st := historyStats xs
  [(("prev_cycle_length_1"), some (st.prev1 : ℝ)),
   (("prev_cycle_length_2"), some (st.prev2 : ℝ)),
   (("prev_cycle_length_3"), some (st.prev3 : ℝ)),
   (("rolling_mean_3"), some (st.mean : ℝ)),
   (("rolling_std_3"), some st.std),
   (("age"), some (user_age : ℝ)),
   (("cramps"), some (if s.cramps then 1 else 0)),
   (("headache"), some (if s.headache then 1 else 0)),
   (("mood_swings"), some (if s.mood_swings then 1 else 0)),
   (("fatigue"), some (if s.fatigue then 1 else 0)),
   (("bloating"), some (if s.bloating then 1 else 0)),
   (("flow_encoded"), toRealOpt (s.flow_encoded.getD (some 2))),
   (("period_length"), toRealOpt (s.period_length.getD (some 5)))]

/-- The persisted model artifact: the fitted regressor (opaque to the
prediction path, so modelled as an arbitrary function from the feature
vector to a raw output), the feature-name ordering it was trained with,
and the version tag. -/
structure ModelData where
  model : List ℝ → ℝ
  feature_names : List String
  version : String

/-- The model file on disk: `none` when no artifact exists yet. -/
abbrev Store := Option ModelData

/-- `save_model` (src/Tracker/ml/model.py lines 74-92): overwrites the store
wholesale with the model, the feature names and version tag 1.0. -/
def save_model (model : List ℝ → ℝ) (feature_names : List String) : Store :=
  some { model := model, feature_names := feature_names, version := ("1.0") }

/-- `load_model` (src/Tracker/ml/model.py lines 95-112): raises
`FileNotFoundError` (the `Except.error`) when no artifact exists, otherwise
returns the model and the saved feature names. -/
def load_model (st : Store) : Except Unit ((List ℝ → ℝ) × List String) :=
  match st with
  | none => Except.error ()
  | some d => Except.ok (d.model, d.feature_names)

/-- `predict_cycle_length` (src/Tracker/ml/model.py lines 115-148): loads the
artifact, builds the input vector in the persisted feature order with 0 for
missing/None entries, clamps the raw output to [21, 40], rounds to one
decimal, and reports the fraction of persisted feature names that were
supplied with a non-None value as confidence. -/
noncomputable def predict_cycle_length (st : Store)
    (features_dict : List (String × Option ℝ)) : Except Unit (ℝ × ℚ) :=
  match load_model st with
  | Except.error e => Except.error e
  | Except.ok (model, feature_names) =>
    let features := feature_names.map
      (fun n => ((dget features_dict n).getD (some 0)).getD 0)
    let predicted := model features
    let clamped : ℝ := max 21 (min 40 predicted)
    let available :=
      (feature_names.filter (fun n => ((dget features_dict n).getD none).isSome)).length
    Except.ok (round1R clamped, (available : ℚ) / (feature_names.length : ℚ))

/-- `predict_with_history` (src/Tracker/ml/model.py lines 151-212): builds the
feature dict from the history and delegates to `predict_cycle_length`; a
`FileNotFoundError` is caught and answered with the rounded mean of the
history (confidence 0.5), or 28.0 (confidence 0.3) when the history is
empty. -/
noncomputable def predict_with_history (st : Store) (cycle_lengths : List ℚ)
    (user_age : ℚ) (s : Symptoms) : ℝ × ℚ :=
  match predict_cycle_length st (features_of cycle_lengths user_age s) with
  | Except.ok r => r
  | Except.error _ =>
    if cycle_lengths = [] then ((28 : ℝ), 3/10)
    else (((round1 (np_mean cycle_lengths) : ℚ) : ℝ), 1/2)

/-- `get_feature_columns` (src/Tracker/ml/data_loader.py lines 176-192). -/
def get_feature_columns : List String :=
  [("prev_cycle_length_1"), ("prev_cycle_length_2"), ("prev_cycle_length_3"),
   ("rolling_mean_3"), ("rolling_std_3"), ("age"),
   ("cramps"), ("headache"), ("mood_swings"), ("fatigue"), ("bloating"),
   ("flow_encoded"), ("period_length")]

/-- A stored cycle row (`Tracker.models.Cycle`); dates are modelled as day
numbers, so `(end_date - start_date).days` becomes plain subtraction. -/
structure CycleRec where
  start_date : ℤ
  end_date : Option ℤ := none
  cycle_length : Option ℤ := none
deriving DecidableEq

/-- A stored daily-log row (`Tracker.models.DailyLog`). -/
structure LogRec where
  date : ℤ
  flow_intensity : String
  cramps : Bool := false
  headache : Bool := false
  mood_swings : Bool := false
  fatigue : Bool := false
  bloating : Bool := false
deriving DecidableEq

/-- One user's stored records.  `cycles` is kept in ascending `start_date`
order and `logs` in descending `date` order — exactly the orders the Django
querysets in `forecast_service.py` ask for, so the `order_by` calls become
the identity (and `order_by('-start_date').first()` becomes `getLast?`). -/
structure UserData where
  cycles : List CycleRec
  logs : List LogRec

/-- The completed-cycle queryset `Cycle.objects.filter(cycle_length__isnull=False)`
ordered by `start_date`. -/
def completed_cycles (u : UserData) : List CycleRec :=
  u.cycles.filter (fun c => c.cycle_length.isSome)

/-- `[c.cycle_length for c in cycles if c.cycle_length]`
(src/Tracker/forecast_service.py line 30): Python truthiness also drops a
stored length of 0. -/
def user_cycle_lengths (u : UserData) : List ℤ :=
  ((completed_cycles u).filterMap (fun c => c.cycle_length)).filter (fun l => l != 0)

/-- `flow_map.get(l.flow_intensity, 2)` (src/Tracker/forecast_service.py
lines 66-67). -/
def flow_map (f : String) : ℚ :=
  if f == ("none") then 0
  else if f == ("light") then 1
  else if f == ("medium") then 2
  else if f == ("heavy") then 3
  else 2

/-- The symptom aggregation of `get_user_cycle_data`
(src/Tracker/forecast_service.py lines 32-81): defaults, then the
frequency flags and average flow over the 30 most recent logs, then the
average plausible (1-10 day) period length over completed cycles. -/
def user_symptoms (u : UserData) : Symptoms :=
  let recent := u.logs.take 30
  let base : Symptoms :=
    { cramps := false, headache := false, mood_swings := false,
      fatigue := false, bloating := false,
      flow_encoded := some (some 2), period_length := some (some 5) }
  let s1 :=
    if recent = [] then base
    else
      let total : ℚ := (recent.length : ℚ)
      let flows := recent.map (fun l => flow_map l.flow_intensity)
      { base with
        cramps := decide (total * (3/10) < (((recent.filter (fun l => l.cramps)).length : ℚ)))
        headache := decide (total * (3/10) < (((recent.filter (fun l => l.headache)).length : ℚ)))
        mood_swings := decide (total * (3/10) < (((recent.filter (fun l => l.mood_swings)).length : ℚ)))
        fatigue := decide (total * (3/10) < (((recent.filter (fun l => l.fatigue)).length : ℚ)))
        bloating := decide (total * (3/10) < (((recent.filter (fun l => l.bloating)).length : ℚ)))
        flow_encoded :=
          if flows = [] then base.flow_encoded
          else some (some (flows.sum / (flows.length : ℚ))) }
  let completed := completed_cycles u
  if completed = [] then s1
  else
    let plens := completed.filterMap (fun c =>
      match c.end_date with
      | some e =>
        let p := e - c.start_date
        if 1 ≤ p ∧ p ≤ 10 then some p else none
      | none => none)
    if plens = [] then s1
    else { s1 with
           period_length := some (some ((plens.map (fun p => (p : ℚ))).sum / (plens.length : ℚ))) }

/-- The dict returned by `get_prediction_for_user`
(src/Tracker/forecast_service.py lines 85-162).  The early
"not enough data" return has no `cycle_count` key, hence the `Option`. -/
structure ForecastResult where
  predicted_length : Option ℝ
  predicted_date : Option ℤ
  confidence : ℚ
  days_until : Option ℤ
  has_enough_data : Bool
  message : String
  cycle_count : Option ℕ

/-- `get_prediction_for_user` (src/Tracker/forecast_service.py lines 85-162):
early "not enough data" return on zero usable cycle lengths; otherwise
predict, derive the next date from the most recent cycle's start date,
dampen confidence by 0.7 when fewer than 3 cycles, round it to 2 decimals
and pick the message tier.  The two `predicted_date` branches of the source
are the same expression, so they are merged here. -/
noncomputable def get_prediction_for_user (st : Store) (u : UserData) (today : ℤ) :
    ForecastResult :=
  let cycle_lengths := user_cycle_lengths u
  if 1 ≤ cycle_lengths.length then
    let pr := predict_with_history st (cycle_lengths.map (fun l => (l : ℚ))) 25 (user_symptoms u)
    let predicted_date :=
      match u.cycles.getLast? with
      | some lc => some (lc.start_date + pyInt pr.1)
      | none => none
    let days_until :=
      match predicted_date with
      | some d => some (d - today)
      | none => none
    let confidence := if cycle_lengths.length < 3 then pr.2 * (7/10) else pr.2
    { predicted_length := some pr.1
      predicted_date := predicted_date
      confidence := round2 confidence
      days_until := days_until
      has_enough_data := true
      message :=
        if 7/10 ≤ confidence then ("High confidence prediction")
        else if 1/2 ≤ confidence then ("Moderate confidence - log more cycles for better accuracy")
        else ("Low confidence - based on limited data")
      cycle_count := some cycle_lengths.length }
  else
    { predicted_length := none
      predicted_date := none
      confidence := 0
      days_until := none
      has_enough_data := false
      message := ("Log at least one complete cycle to get predictions")
      cycle_count := none }

/-- `Cycle.calculate_cycle_length` (src/Tracker/models.py lines 20-23): when
an end date is present, store `(end_date - start_date).days`. -/
def calculate_cycle_length (c : CycleRec) : CycleRec :=
  match c.end_date with
  | some e => { c with cycle_length := some (e - c.start_date) }
  | none => c

/-- The cycle-creation path of `cycle_create` (src/Tracker/views.py
lines 113-130): if the most recent cycle is still open, its end date is set
to the day before the new start and the row is saved with a plain Django
`save()` — `Cycle` defines no `save` override and nothing on this path calls
`calculate_cycle_length`, so the stored `cycle_length` is left untouched.
Then the new cycle is inserted with no end date and no length. -/
def cycle_create (cycles : List CycleRec) (new_start : ℤ) : List CycleRec :=
  let closed :=
    match cycles.getLast? with
    | some prev =>
      if prev.end_date = none then
        cycles.dropLast ++ [{ prev with end_date := some (new_start - 1) }]
      else cycles
    | none => cycles
  closed ++ [{ start_date := new_start, end_date := none, cycle_length := none }]

/-- Sample variance (`pandas .std()` default `ddof=1`); meaningful only for
windows of at least 2 elements (pandas yields `NaN` below that). -/
def sample_var (xs : List ℚ) : ℚ :=
  (xs.map (fun x => (x - np_mean xs) ^ 2)).sum / ((xs.length : ℚ) - 1)

/-- pandas rolling `std` value over a window. -/
noncomputable def sample_std (xs : List ℚ) : ℝ := Real.sqrt ((sample_var xs : ℚ) : ℝ)

/-- pandas `Series.shift(k)` over one user's time-ordered `cycle_length`
column (the groupwise `shift` of `create_features`,
src/Tracker/ml/data_loader.py lines 150-152): row `i` holds row `i-k`'s
value, `NaN` (`none`) when `i < k`. -/
def shift_col (k : ℕ) (xs : List ℚ) : List (Option ℚ) :=
  (List.range xs.length).map (fun i => if k ≤ i then some (xs.getD (i - k) 0) else none)

/-- The trailing window `rolling(3, min_periods=1)` sees at row `i`:
`xs[max(i-2,0) .. i]`. -/
def window3 (xs : List ℚ) (i : ℕ) : List ℚ := (xs.take (i + 1)).drop (i + 1 - 3)

/-- `cycle_length.rolling(3, min_periods=1).mean().shift(1)`
(src/Tracker/ml/data_loader.py lines 155-157). -/
def rolling_mean_col (xs : List ℚ) : List (Option ℚ) :=
  (List.range xs.length).map (fun i =>
    if 1 ≤ i then some (np_mean (window3 xs (i - 1))) else none)

/-- `cycle_length.rolling(3, min_periods=1).std().shift(1)`
(src/Tracker/ml/data_loader.py lines 160-162): pandas `std` uses `ddof=1`,
so a singleton window is already `NaN` before the shift. -/
noncomputable def rolling_std_col (xs : List ℚ) : List (Option ℝ) :=
  (List.range xs.length).map (fun i =>
    if 1 ≤ i then
      (if 2 ≤ (window3 xs (i - 1)).length then some (sample_std (window3 xs (i - 1))) else none)
    else none)

/-- `create_features` gap filling for the three lag columns
(src/Tracker/ml/data_loader.py lines 167-171): `fillna(28)`. -/
def lag_col_filled (k : ℕ) (xs : List ℚ) : List ℚ :=
  (shift_col k xs).map (fun o => o.getD 28)

/-- `create_features` gap filling for `rolling_mean_3`
(src/Tracker/ml/data_loader.py lines 167-171): `fillna(28)`. -/
def rolling_mean_filled (xs : List ℚ) : List ℚ :=
  (rolling_mean_col xs).map (fun o => o.getD 28)

/-- `create_features` gap filling for `rolling_std_3`
(src/Tracker/ml/data_loader.py line 165): `fillna(2)`. -/
noncomputable def rolling_std_filled (xs : List ℚ) : List ℝ :=
  (rolling_std_col xs).map (fun o => o.getD 2)

/-! ### Helper lemmas -/

/-- `round` is monotone. -/
theorem round_mono_le {α : Type} [LinearOrderedField α] [FloorRing α]
    {x y : α} (h : x ≤ y) : round x ≤ round y := by
  rw [round_eq, round_eq]
  exact Int.floor_le_floor (by linarith)

/-- Rounding to one decimal keeps a value of [21, 40] inside [21, 40]. -/
theorem round1R_mem_Icc {x : ℝ} (h1 : 21 ≤ x) (h2 : x ≤ 40) :
    21 ≤ round1R x ∧ round1R x ≤ 40 := by
  have l1 : (210 : ℤ) ≤ round (10 * x) := by
    have h := round_mono_le (show (210 : ℝ) ≤ 10 * x by linarith)
    simpa using h
  have l2 : round (10 * x) ≤ 400 := by
    have h := round_mono_le (show 10 * x ≤ (400 : ℝ) by linarith)
    simpa using h
  have c1 : (210 : ℝ) ≤ (round (10 * x) : ℝ) := by exact_mod_cast l1
  have c2 : ((round (10 * x) : ℤ) : ℝ) ≤ 400 := by exact_mod_cast l2
  rw [round1R]
  constructor <;> linarith

/-- Rounding to two decimals keeps a value of [0, 1] inside [0, 1]. -/
theorem round2_mem_Icc {x : ℚ} (h0 : 0 ≤ x) (h1 : x ≤ 1) :
    0 ≤ round2 x ∧ round2 x ≤ 1 := by
  have l1 : (0 : ℤ) ≤ round (100 * x) := by
    have h := round_mono_le (show (0 : ℚ) ≤ 100 * x by linarith)
    simpa using h
  have l2 : round (100 * x) ≤ 100 := by
    have h := round_mono_le (show 100 * x ≤ (100 : ℚ) by linarith)
    simpa using h
  have c1 : (0 : ℚ) ≤ ((round (100 * x) : ℤ) : ℚ) := by exact_mod_cast l1
  have c2 : ((round (100 * x) : ℤ) : ℚ) ≤ 100 := by exact_mod_cast l2
  rw [round2]
  constructor <;> linarith

/-- The feature-completeness ratio of `predict_cycle_length` is in [0, 1]
for every feature-name list and dict (with the `x / 0 = 0` convention for
an empty feature-name list, where CPython would divide by zero; artifacts
produced by the training pipeline always carry 13 names). -/
theorem filter_ratio_mem (p : String → Bool) (names : List String) :
    0 ≤ ((names.filter p).length : ℚ) / (names.length : ℚ) ∧
    ((names.filter p).length : ℚ) / (names.length : ℚ) ≤ 1 := by
  constructor
  · positivity
  · rcases eq_or_ne names [] with rfl | hne
    · simp
    · rw [div_le_one (by exact_mod_cast List.length_pos.mpr hne)]
      exact_mod_cast List.length_filter_le p names

/-- The confidence component of `predict_with_history` is always in [0, 1]. -/
theorem predict_conf_mem (st : Store) (xs : List ℚ) (user_age : ℚ) (s : Symptoms) :
    0 ≤ (predict_with_history st xs user_age s).2 ∧
    (predict_with_history st xs user_age s).2 ≤ 1 := by
  cases st with
  | none =>
    by_cases hx : xs = [] <;>
      simp [predict_with_history, predict_cycle_length, load_model, hx] <;> norm_num
  | some a =>
    have h := filter_ratio_mem
      (fun n => ((dget (features_of xs user_age s) n).getD none).isSome) a.feature_names
    simpa [predict_with_history, predict_cycle_length, load_model] using h

/-! ### C7: model store round trip -/

/-- C7: saving a model artifact and loading it back returns exactly the model
and the same feature-name list, in the same order. -/
theorem save_then_load_feature_names (model : List ℝ → ℝ) (feature_names : List String) :
    load_model (save_model model feature_names) = Except.ok (model, feature_names) := rfl

/-! ### C1: no-artifact fallback -/

/-- C1 counterexample: with no artifact and history [29, 30, 27] the fallback
returns 28.7 — the mean rounded to one decimal — which is not the arithmetic
mean 86/3 the claim promises. -/
theorem no_artifact_mean_counterexample :
    (predict_with_history none [29, 30, 27] 25 {}).1 = ((287/10 : ℚ) : ℝ) ∧
    ((287/10 : ℚ) : ℝ) ≠ ((np_mean [29, 30, 27] : ℚ) : ℝ) := by
  have h : round1 (np_mean [29, 30, 27]) = 287/10 := by
    norm_num [round1, np_mean, round_eq]
  constructor
  · show ((round1 (np_mean [29, 30, 27]) : ℚ) : ℝ) = _
    rw [h]
  · have h2 : np_mean [29, 30, 27] = 86/3 := by norm_num [np_mean]
    rw [h2]
    intro hcon
    have : (287/10 : ℚ) = 86/3 := Rat.cast_injective (α := ℝ) hcon
    norm_num at this

/-- C1 (amended): with no model artifact, `predict_with_history` never raises
and returns the one-decimal-rounded arithmetic mean of the supplied cycle
lengths with confidence 0.5 for a non-empty history, and 28.0 with
confidence 0.3 for an empty history. -/
theorem no_artifact_fallback (cycle_lengths : List ℚ) (user_age : ℚ) (s : Symptoms) :
    predict_with_history none cycle_lengths user_age s =
      if cycle_lengths = [] then ((28 : ℝ), (3/10 : ℚ))
      else (((round1 (np_mean cycle_lengths) : ℚ) : ℝ), (1/2 : ℚ)) := rfl

/-! ### C8: fallback scenario [28, 30, 27] -/

/-- C8 counterexample: with no artifact, history [28, 30, 27] produces the
value 28.3, not the 28.33 the claim states. -/
theorem scenario_fallback_counterexample :
    (predict_with_history none [28, 30, 27] 25 {}).1 = ((283/10 : ℚ) : ℝ) ∧
    ((283/10 : ℚ) : ℝ) ≠ ((2833/100 : ℚ) : ℝ) := by
  have h : round1 (np_mean [28, 30, 27]) = 283/10 := by
    norm_num [round1, np_mean, round_eq]
  constructor
  · show ((round1 (np_mean [28, 30, 27]) : ℚ) : ℝ) = _
    rw [h]
  · intro hcon
    have : (283/10 : ℚ) = 2833/100 := Rat.cast_injective (α := ℝ) hcon
    norm_num at this

/-- C8 (amended): history [28, 30, 27], age 25, no symptoms, no artifact ⇒
`predict_with_history` returns the rounded fallback mean 28.3 with
confidence 0.5. -/
theorem scenario_fallback_283 :
    predict_with_history none [28, 30, 27] 25 {} = (((283/10 : ℚ) : ℝ), (1/2 : ℚ)) := by
  have h : round1 (np_mean [28, 30, 27]) = 283/10 := by
    norm_num [round1, np_mean, round_eq]
  show (((round1 (np_mean [28, 30, 27]) : ℚ) : ℝ), (1/2 : ℚ)) = _
  rw [h]

/-! ### C3: clamping and rounding of predictions -/

/-- C3 counterexample: the no-artifact fallback path of `predict_with_history`
is not clamped to [21, 40]: history [50] yields the value 50. -/
theorem fallback_not_clamped :
    (predict_with_history none [50] 25 {}).1 = ((50 : ℚ) : ℝ) ∧
    ¬ ((predict_with_history none [50] 25 {}).1 ≤ 40) := by
  have h : round1 (np_mean [50]) = 50 := by norm_num [round1, np_mean, round_eq]
  constructor
  · show ((round1 (np_mean [50]) : ℚ) : ℝ) = _
    rw [h]
  · show ¬ ((round1 (np_mean [50]) : ℚ) : ℝ) ≤ 40
    rw [h]
    push_cast
    norm_num

/-- C3 (amended): every prediction that goes through `predict_cycle_length`
(the model path) is clamped to [21, 40] and is a multiple of 1/10 (rounded
to one decimal); every result of `predict_with_history` — fallback included —
is rounded to one decimal, but the fallback is not clamped. -/
theorem clamp_and_round_policy (a : ModelData) (d : List (String × Option ℝ))
    (st : Store) (xs : List ℚ) (user_age : ℚ) (s : Symptoms) :
    (∃ v c, predict_cycle_length (some a) d = Except.ok (v, c) ∧
        21 ≤ v ∧ v ≤ 40 ∧ ∃ k : ℤ, v = (k : ℝ) / 10) ∧
    (∃ k : ℤ, (predict_with_history st xs user_age s).1 = (k : ℝ) / 10) := by
  constructor
  · refine ⟨_, _, rfl, ?_, ?_, ?_⟩
    · exact (round1R_mem_Icc (le_max_left _ _)
        (max_le (by norm_num) (min_le_left _ _))).1
    · exact (round1R_mem_Icc (le_max_left _ _)
        (max_le (by norm_num) (min_le_left _ _))).2
    · exact ⟨_, rfl⟩
  · cases st with
    | some a => exact ⟨_, rfl⟩
    | none =>
      by_cases hx : xs = []
      · refine ⟨280, ?_⟩
        show (if xs = [] then ((28 : ℝ), (3/10 : ℚ))
          else (((round1 (np_mean xs) : ℚ) : ℝ), (1/2 : ℚ))).1 = _
        rw [if_pos hx]
        norm_num
      · refine ⟨round (10 * np_mean xs), ?_⟩
        show (if xs = [] then ((28 : ℝ), (3/10 : ℚ))
          else (((round1 (np_mean xs) : ℚ) : ℝ), (1/2 : ℚ))).1 = _
        rw [if_neg hx]
        show ((round1 (np_mean xs) : ℚ) : ℝ) = _
        rw [round1]
        push_cast
        ring

/-! ### C2 and C10: the feature builder -/

/-- A `.get(key, default)`-style read of a present-and-non-None or absent
optional entry is non-None. -/
theorem opt_read_isSome (o : Option (Option ℚ)) (d : ℚ)
    (h : o ≠ some none) : (toRealOpt (o.getD (some d))).isSome = true := by
  rcases o with _ | o
  · rfl
  · rcases o with _ | v
    · exact absurd rfl h
    · rfl

theorem np_mean_pair (a b : ℚ) : np_mean [a, b] = (a + b) / 2 := by
  norm_num [np_mean]

theorem np_mean_triple (a b c : ℚ) : np_mean [a, b, c] = (a + b + c) / 3 := by
  norm_num [np_mean]
  ring

theorem np_var_pair (a b : ℚ) :
    np_var [a, b] = ((a - (a + b) / 2) ^ 2 + (b - (a + b) / 2) ^ 2) / 2 := by
  simp only [np_var, List.map_cons, List.map_nil, np_mean_pair]

theorem np_var_triple (a b c : ℚ) :
    np_var [a, b, c] = ((a - (a + b + c) / 3) ^ 2 + (b - (a + b + c) / 3) ^ 2 +
      (c - (a + b + c) / 3) ^ 2) / 3 := by
  simp only [np_var, List.map_cons, List.map_nil, np_mean_triple]

theorem np_std_pair (a b : ℚ) :
    np_std [a, b] = Real.sqrt ((((a : ℝ) - ((a : ℝ) + (b : ℝ)) / 2) ^ 2 +
      ((b : ℝ) - ((a : ℝ) + (b : ℝ)) / 2) ^ 2) / 2) := by
  rw [np_std, np_var_pair]
  congr 1
  push_cast
  ring

theorem np_std_triple (a b c : ℚ) :
    np_std [a, b, c] = Real.sqrt ((((a : ℝ) - ((a : ℝ) + (b : ℝ) + (c : ℝ)) / 3) ^ 2 +
      ((b : ℝ) - ((a : ℝ) + (b : ℝ) + (c : ℝ)) / 3) ^ 2 +
      ((c : ℝ) - ((a : ℝ) + (b : ℝ) + (c : ℝ)) / 3) ^ 2) / 3) := by
  rw [np_std, np_var_triple]
  congr 1
  push_cast
  ring

theorem last3_append (ys : List ℚ) (a b c : ℚ) : last3 (ys ++ [a, b, c]) = [a, b, c] := by
  rw [last3]
  have h : (ys ++ [a, b, c]).length - 3 = ys.length := by simp
  rw [h, List.drop_left]

/-- Every value of the feature dict built by `predict_with_history` is
non-None, as long as the symptoms dict does not map `flow_encoded` or
`period_length` to a literal `None`. -/
theorem features_of_all_some (xs : List ℚ) (user_age : ℚ) (s : Symptoms)
    (hf : s.flow_encoded ≠ some none) (hp : s.period_length ≠ some none) :
    ∀ p ∈ features_of xs user_age s, p.2.isSome = true := by
  intro p hmem
  simp only [features_of, List.mem_cons, List.not_mem_nil, or_false] at hmem
  rcases hmem with rfl | rfl | rfl | rfl | rfl | rfl | rfl | rfl | rfl | rfl | rfl | rfl | rfl <;>
    first
      | rfl
      | exact opt_read_isSome _ _ hf
      | exact opt_read_isSome _ _ hp

/-- C2: for every history the feature dict of `predict_with_history` carries
exactly the 13 expected feature names (in the trained order), all values
non-missing, and the lag/rolling statistics follow the degradation policy:
empty history ⇒ lags 28/28/28, mean 28, std 2; singleton `[v]` ⇒ lags all
`v`, mean `v`, std 2; pair `[a, b]` ⇒ lag-1 = b, lag-2 = a, lag-3 = lag-1's
value b, mean and population std over both; length ≥ 3 ⇒ lags are the last
three values and mean/population-std are taken over the last three. -/
theorem feature_builder_policy (xs : List ℚ) (user_age : ℚ) (s : Symptoms)
    (hf : s.flow_encoded ≠ some none) (hp : s.period_length ≠ some none) :
    ((features_of xs user_age s).map Prod.fst = get_feature_columns) ∧
    (∀ p ∈ features_of xs user_age s, p.2.isSome = true) ∧
    (xs = [] → historyStats xs = ⟨28, 28, 28, 28, 2⟩) ∧
    (∀ v, xs = [v] → historyStats xs = ⟨v, v, v, v, 2⟩) ∧
    (∀ a b, xs = [a, b] → historyStats xs =
      ⟨b, a, b, (a + b) / 2,
        Real.sqrt ((((a : ℝ) - ((a : ℝ) + (b : ℝ)) / 2) ^ 2 +
          ((b : ℝ) - ((a : ℝ) + (b : ℝ)) / 2) ^ 2) / 2)⟩) ∧
    (∀ ys a b c, xs = ys ++ [a, b, c] → historyStats xs =
      ⟨c, b, a, (a + b + c) / 3,
        Real.sqrt ((((a : ℝ) - ((a : ℝ) + (b : ℝ) + (c : ℝ)) / 3) ^ 2 +
          ((b : ℝ) - ((a : ℝ) + (b : ℝ) + (c : ℝ)) / 3) ^ 2 +
          ((c : ℝ) - ((a : ℝ) + (b : ℝ) + (c : ℝ)) / 3) ^ 2) / 3)⟩) := by
  refine ⟨rfl, features_of_all_some xs user_age s hf hp, ?_, ?_, ?_, ?_⟩
  · rintro rfl
    rfl
  · rintro v rfl
    rfl
  · rintro a b rfl
    have e : historyStats [a, b] = ⟨b, a, b, np_mean [a, b], np_std [a, b]⟩ := rfl
    rw [e]
    simp only [HistStats.mk.injEq, true_and]
    exact ⟨np_mean_pair a b, np_std_pair a b⟩
  · rintro ys a b c rfl
    have hlen : 3 ≤ (ys ++ [a, b, c]).length := by simp
    have hrev : (ys ++ [a, b, c]).reverse = c :: b :: a :: ys.reverse := by simp
    unfold historyStats
    rw [if_pos hlen]
    simp only [HistStats.mk.injEq]
    refine ⟨?_, ?_, ?_, ?_, ?_⟩
    · simp [hrev]
    · simp [hrev]
    · simp [hrev]
    · rw [last3_append]
      exact np_mean_triple a b c
    · rw [last3_append]
      exact np_std_triple a b c

/-- Witness for C2: the three-element history [28, 30, 27] hits the ≥3 branch
of the policy with the stated lags and last-3 rolling statistics. -/
theorem feature_builder_policy_witness :
    historyStats [28, 30, 27] =
      ⟨27, 30, 28, ((28 : ℚ) + 30 + 27) / 3,
        Real.sqrt (((((28 : ℚ) : ℝ) - (((28 : ℚ) : ℝ) + ((30 : ℚ) : ℝ) + ((27 : ℚ) : ℝ)) / 3) ^ 2 +
          (((30 : ℚ) : ℝ) - (((28 : ℚ) : ℝ) + ((30 : ℚ) : ℝ) + ((27 : ℚ) : ℝ)) / 3) ^ 2 +
          (((27 : ℚ) : ℝ) - (((28 : ℚ) : ℝ) + ((30 : ℚ) : ℝ) + ((27 : ℚ) : ℝ)) / 3) ^ 2) / 3)⟩ :=
  (feature_builder_policy [28, 30, 27] 25 {} (by decide) (by decide)).2.2.2.2.2 [] 28 30 27 rfl

/-- C10: when every supplied `flow_encoded`/`period_length` value is non-None,
the feature dict is complete, so with an artifact trained on the 13 expected
feature names `predict_cycle_length` reports the completeness ratio
13/13 = 1 as confidence. -/
theorem full_features_confidence_one (xs : List ℚ) (user_age : ℚ) (s : Symptoms)
    (m : List ℝ → ℝ) (hf : s.flow_encoded ≠ some none) (hp : s.period_length ≠ some none) :
    (∀ p ∈ features_of xs user_age s, p.2.isSome = true) ∧
    ∃ v, predict_cycle_length (some ⟨m, get_feature_columns, ("1.0")⟩)
        (features_of xs user_age s) = Except.ok (v, 1) := by
  refine ⟨features_of_all_some xs user_age s hf hp, ?_⟩
  have hmem : ∀ n ∈ get_feature_columns,
      (((dget (features_of xs user_age s) n).getD none).isSome) = true := by
    intro n hn
    fin_cases hn <;>
      first
        | rfl
        | exact opt_read_isSome _ _ hf
        | exact opt_read_isSome _ _ hp
  have hconf : ((get_feature_columns.filter
      (fun n => ((dget (features_of xs user_age s) n).getD none).isSome)).length : ℚ) /
      (get_feature_columns.length : ℚ) = 1 := by
    rw [List.filter_eq_self.mpr hmem]
    norm_num [get_feature_columns]
  have e : predict_cycle_length (some ⟨m, get_feature_columns, ("1.0")⟩)
      (features_of xs user_age s) =
      Except.ok (round1R (max 21 (min 40 (m (get_feature_columns.map
          (fun n => ((dget (features_of xs user_age s) n).getD (some 0)).getD 0))))),
        ((get_feature_columns.filter
          (fun n => ((dget (features_of xs user_age s) n).getD none).isSome)).length : ℚ) /
          (get_feature_columns.length : ℚ)) := rfl
  rw [e, hconf]
  exact ⟨_, rfl⟩

/-- Witness for C10: empty history, default age, empty symptoms dict, constant
model 28: the reported confidence is exactly 1. -/
theorem full_features_confidence_one_witness :
    ∃ v, predict_cycle_length (some ⟨fun _ => 28, get_feature_columns, ("1.0")⟩)
        (features_of [] 25 {}) = Except.ok (v, 1) :=
  (full_features_confidence_one [] 25 {} (fun _ => 28) (by decide) (by decide)).2

/-! ### C4 and C5: the forecast orchestrator -/

/-- The confidence field of `get_prediction_for_user`, written out. -/
theorem get_prediction_confidence_eq (st : Store) (u : UserData) (today : ℤ) :
    (get_prediction_for_user st u today).confidence =
      if 1 ≤ (user_cycle_lengths u).length then
        round2 (if (user_cycle_lengths u).length < 3 then
          (predict_with_history st ((user_cycle_lengths u).map (fun l => (l : ℚ))) 25
            (user_symptoms u)).2 * (7/10)
        else
          (predict_with_history st ((user_cycle_lengths u).map (fun l => (l : ℚ))) 25
            (user_symptoms u)).2)
      else 0 := by
  by_cases hn : 1 ≤ (user_cycle_lengths u).length <;>
    simp [get_prediction_for_user, hn]

/-- C4: the reported confidence is always in [0, 1] and is a value rounded to
two decimals; the ×0.7 sparse-data dampening of the Predictor's confidence
is applied exactly when the completed-cycle count is below 3 (on the
prediction path, i.e. when at least one completed cycle exists). -/
theorem confidence_range_dampening (st : Store) (u : UserData) (today : ℤ) :
    (0 ≤ (get_prediction_for_user st u today).confidence ∧
      (get_prediction_for_user st u today).confidence ≤ 1) ∧
    (∃ k : ℤ, (get_prediction_for_user st u today).confidence = (k : ℚ) / 100) ∧
    (1 ≤ (user_cycle_lengths u).length → (user_cycle_lengths u).length < 3 →
      (get_prediction_for_user st u today).confidence =
        round2 ((predict_with_history st ((user_cycle_lengths u).map (fun l => (l : ℚ))) 25
          (user_symptoms u)).2 * (7/10))) ∧
    (3 ≤ (user_cycle_lengths u).length →
      (get_prediction_for_user st u today).confidence =
        round2 ((predict_with_history st ((user_cycle_lengths u).map (fun l => (l : ℚ))) 25
          (user_symptoms u)).2)) := by
  have hc := predict_conf_mem st ((user_cycle_lengths u).map (fun l => (l : ℚ))) 25
    (user_symptoms u)
  refine ⟨?_, ?_, ?_, ?_⟩
  · rw [get_prediction_confidence_eq]
    by_cases hn : 1 ≤ (user_cycle_lengths u).length
    · rw [if_pos hn]
      by_cases h3 : (user_cycle_lengths u).length < 3
      · rw [if_pos h3]
        exact round2_mem_Icc (mul_nonneg hc.1 (by norm_num)) (by linarith [hc.2])
      · rw [if_neg h3]
        exact round2_mem_Icc hc.1 hc.2
    · rw [if_neg hn]
      norm_num
  · rw [get_prediction_confidence_eq]
    by_cases hn : 1 ≤ (user_cycle_lengths u).length
    · rw [if_pos hn]
      exact ⟨_, rfl⟩
    · rw [if_neg hn]
      exact ⟨0, by norm_num⟩
  · intro h1 h3
    rw [get_prediction_confidence_eq, if_pos h1, if_pos h3]
  · intro h3
    rw [get_prediction_confidence_eq, if_pos (by omega), if_neg (by omega)]

/-- Witness for C4: one completed 28-day cycle, no artifact: the dampened
confidence equation holds at a concrete input. -/
theorem confidence_range_dampening_witness :
    1 ≤ (user_cycle_lengths ⟨[⟨0, some 5, some 28⟩], []⟩).length ∧
    (user_cycle_lengths ⟨[⟨0, some 5, some 28⟩], []⟩).length < 3 ∧
    (get_prediction_for_user none ⟨[⟨0, some 5, some 28⟩], []⟩ 0).confidence =
      round2 ((predict_with_history none
        ((user_cycle_lengths ⟨[⟨0, some 5, some 28⟩], []⟩).map (fun l => (l : ℚ))) 25
        (user_symptoms ⟨[⟨0, some 5, some 28⟩], []⟩)).2 * (7/10)) :=
  ⟨by decide, by decide,
    (confidence_range_dampening none ⟨[⟨0, some 5, some 28⟩], []⟩ 0).2.2.1
      (by decide) (by decide)⟩

/-- C5: with zero usable completed cycles `get_prediction_for_user` returns the
fixed well-formed "not enough data" result for every store and date —
so the prediction model is never consulted and nothing can fail. -/
theorem no_data_result (st : Store) (u : UserData) (today : ℤ)
    (h : user_cycle_lengths u = []) :
    get_prediction_for_user st u today =
      { predicted_length := none, predicted_date := none, confidence := 0,
        days_until := none, has_enough_data := false,
        message := ("Log at least one complete cycle to get predictions"),
        cycle_count := none } := by
  simp [get_prediction_for_user, h]

/-- Witness for C5: a user with no cycles at all. -/
theorem no_data_result_witness :
    user_cycle_lengths ⟨[], []⟩ = [] ∧
    get_prediction_for_user none ⟨[], []⟩ 0 =
      { predicted_length := none, predicted_date := none, confidence := 0,
        days_until := none, has_enough_data := false,
        message := ("Log at least one complete cycle to get predictions"),
        cycle_count := none } :=
  ⟨by decide, no_data_result none ⟨[], []⟩ 0 (by decide)⟩

/-! ### C6: cycle length on auto-close -/

/-- C6, evaluated at the failing input: the user's only cycle is open (start
day 0); creating a new cycle starting day 15 sets the previous cycle's end
date to day 14 but leaves its stored `cycle_length` at `none` — nothing on
the path calls `calculate_cycle_length`, which (second conjunct) would have
stored the 14 days that the source comments and the claim promise. -/
theorem cycle_create_stale_length :
    cycle_create [⟨0, none, none⟩] 15 = [⟨0, some 14, none⟩, ⟨15, none, none⟩] ∧
    calculate_cycle_length ⟨0, some 14, none⟩ = ⟨0, some 14, some 14⟩ :=
  ⟨by decide, by decide⟩

/-! ### C9: dataset-preparer gap filling -/

/-- C9 counterexample: for a user with a single cycle, the (one) gap in the
rolling-std column is filled with 2, not with the 28 the claim states. -/
theorem rolling_std_gap_counterexample :
    rolling_std_filled [30] = [(2 : ℝ)] ∧ (2 : ℝ) ≠ 28 :=
  ⟨rfl, by norm_num⟩

/-- C9 (amended): gaps in the three lag columns and in the rolling-mean column
are filled with the fixed default 28, while gaps in the rolling-std column
are filled with 2. -/
theorem gap_fill_policy (xs : List ℚ) (k i : ℕ) :
    (i < k → i < xs.length → (lag_col_filled k xs).getD i 0 = 28) ∧
    (xs ≠ [] → (rolling_mean_filled xs).getD 0 0 = 28) ∧
    (i ≤ 1 → i < xs.length → (rolling_std_filled xs).getD i 0 = 2) := by
  refine ⟨?_, ?_, ?_⟩
  · intro hik hilen
    simp [lag_col_filled, shift_col, List.getD_eq_getElem?_getD, List.getElem?_map,
      List.getElem?_range hilen, Nat.not_le.mpr hik]
  · intro hne
    have h0 : 0 < xs.length := List.length_pos.mpr hne
    simp [rolling_mean_filled, rolling_mean_col, List.getD_eq_getElem?_getD,
      List.getElem?_map, List.getElem?_range h0]
  · intro hi1 hilen
    rcases Nat.le_one_iff_eq_zero_or_eq_one.mp hi1 with rfl | rfl
    · simp [rolling_std_filled, rolling_std_col, List.getD_eq_getElem?_getD,
        List.getElem?_map, List.getElem?_range hilen]
    · have hw : (window3 xs 0).length = 1 := by
        simp only [window3]
        simp
        omega
      simp [rolling_std_filled, rolling_std_col, List.getD_eq_getElem?_getD,
        List.getElem?_map, List.getElem?_range hilen, hw]

/-- Witness for C9: two cycles; the row-1 gap of the shift-2 lag column is
filled with 28, the row-1 gap of the rolling-std column with 2. -/
theorem gap_fill_policy_witness :
    (lag_col_filled 2 [30, 31]).getD 1 0 = 28 ∧ (rolling_std_filled [30, 31]).getD 1 0 = 2 :=
  ⟨(gap_fill_policy [30, 31] 2 1).1 (by decide) (by decide),
   (gap_fill_policy [30, 31] 2 1).2.2 (by decide) (by decide)⟩

end Tracker
